import Mathlib

/-!
Verification of the TCM2Dekatron control plane against its specification.

The definitions below are a shallow embedding of the Python sources:
`tcm/app/core/control_loop.py` (logic evaluator, door debounce),
`tcm/app/core/hardware.py` (output byte encoding),
`tcm/app/core/state.py` (runtime state container),
`tcm/app/services/strike.py` (strike triggering) and
`tcm/app/api/v1.py` (the `set_output` endpoint).
Temperatures, thresholds and timestamps (Python floats) are modelled as
rationals; Python dicts keyed by strings are modelled as `String → Option Bool`.
-/

namespace TCM

/-- The six logical outputs, `LOGICAL_OUTPUTS` of `core/state.py`
(`alarm`, `klimatyzacja` = cooler, `oswietlenie` = light, `grzalka` = heater,
`went_48v`/`went_230v` = fans), as one record of booleans. -/
structure Outputs where
  alarm : Bool
  klimatyzacja : Bool
  oswietlenie : Bool
  grzalka : Bool
  went_48v : Bool
  went_230v : Bool
deriving DecidableEq, Repr

/-- `outputs = {name: False for name in self._output_keys}` — the dictionary of
all-off outputs rebuilt at the start of every `_automatic_logic` call. -/
def Outputs.allOff : Outputs :=
  { alarm := false, klimatyzacja := false, oswietlenie := false,
    grzalka := false, went_48v := false, went_230v := false }

/-- `SensorSnapshot` of `core/state.py`: four optional readings, `None`
meaning "unreadable this cycle". -/
structure SensorSnapshot where
  temp_batt : Option ℚ := none
  hum_batt : Option ℚ := none
  temp_cab : Option ℚ := none
  hum_cab : Option ℚ := none
deriving DecidableEq, Repr

/-- `ThresholdConfig` of `core/config.py` with its field defaults
(`grzalka_c = 5`, `klimatyzacja_c = 25`, `went_c = 30`, `histereza_c = 1`). -/
structure ThresholdConfig where
  grzalka_c : ℚ := 5
  klimatyzacja_c : ℚ := 25
  went_c : ℚ := 30
  histereza_c : ℚ := 1
deriving DecidableEq, Repr

/-- The default threshold configuration of `core/config.py`. -/
def defaultThresholds : ThresholdConfig := {}

/-- `LOGICAL_OUTPUTS` of `core/state.py`: the closed set of output names. -/
def LOGICAL_OUTPUTS : List String :=
  ["alarm", "klimatyzacja", "oswietlenie", "grzalka", "went_48v", "went_230v"]

/-- `temperature = max(filter(lambda x: x is not None, [temp_batt, temp_cab]))`
when at least one reading is present, else `None`
(`ControlLoop._automatic_logic`, control_loop.py lines 180-189). -/
def effectiveTemp (tb tc : Option ℚ) : Option ℚ :=
  match tb, tc with
  | none, none => none
  | some b, none => some b
  | none, some c => some c
  | some b, some c => some (max b c)

/-- `ControlLoop._automatic_logic` (control_loop.py lines 165-206): starts from
the all-off dictionary, returns early on open doors or active flood, enters
safe mode when both temperatures are missing, otherwise applies the
heater/cooler bands and the fan threshold to the effective temperature. -/
def automaticLogic (thresholds : ThresholdConfig) (sensors : SensorSnapshot)
    (doorsOpen floodActive : Bool) : Outputs :=
  let outputs := Outputs.allOff
  if doorsOpen then
    { outputs with alarm := true, oswietlenie := true }
  else if floodActive then
    { outputs with alarm := true }
  else
    match effectiveTemp sensors.temp_batt sensors.temp_cab with
    | none => outputs
    | some temperature =>
      let hysteresis := thresholds.histereza_c
      let o1 :=
        if temperature ≤ thresholds.grzalka_c - hysteresis then
          { outputs with grzalka := true }
        else if temperature ≥ thresholds.grzalka_c + hysteresis then
          { outputs with grzalka := false }
        else outputs
      let o2 :=
        if temperature ≥ thresholds.klimatyzacja_c + hysteresis then
          { o1 with klimatyzacja := true }
        else if temperature ≤ thresholds.klimatyzacja_c - hysteresis then
          { o1 with klimatyzacja := false }
        else o1
      if temperature ≥ thresholds.went_c then
        { o2 with went_48v := true, went_230v := true }
      else o2

/-- `outputs.update(state.manual_overrides)` restricted to the six logical
output keys: an override present in the dictionary replaces the previous
value, an absent one leaves it unchanged. -/
def applyOverrides (o : Outputs) (ov : String → Option Bool) : Outputs where
  alarm := (ov "alarm").getD o.alarm
  klimatyzacja := (ov "klimatyzacja").getD o.klimatyzacja
  oswietlenie := (ov "oswietlenie").getD o.oswietlenie
  grzalka := (ov "grzalka").getD o.grzalka
  went_48v := (ov "went_48v").getD o.went_48v
  went_230v := (ov "went_230v").getD o.went_230v

/-- `RuntimeState` of `core/state.py`: the lock-protected runtime record. -/
structure RuntimeState where
  inputs : String → Option Bool
  sensors : SensorSnapshot
  outputs : Outputs
  alarm_reason : Option String
  buzzer_muted : Bool
  strike_active_until : Option ℚ
  last_updated : ℚ
  error : Option String
  manual_mode : Bool
  manual_overrides : String → Option Bool

/-- `ControlLoop._evaluate_logic` (control_loop.py lines 120-147): in manual
mode the previous outputs are merged with the overrides and the previous
alarm reason is carried over; otherwise `_automatic_logic` runs and the reason
is `door_open`, `flood`, `overheat` (when a fan output is on) or none, in that
order. `doorStates`/`floodStates` are the values of `_door_state` and
`_flood_state`; the loop computes `any(...)` over them. -/
def evaluateLogic (thresholds : ThresholdConfig) (state : RuntimeState)
    (sensors : SensorSnapshot) (doorStates floodStates : List Bool) :
    Outputs × Option String :=
  let doorsOpen := doorStates.any id
  let floodActive := floodStates.any id
  if state.manual_mode then
    (applyOverrides state.outputs state.manual_overrides, state.alarm_reason)
  else
    let outputs := automaticLogic thresholds sensors doorsOpen floodActive
    let reason : Option String :=
      if doorsOpen then some "door_open"
      else if floodActive then some "flood"
      else if outputs.went_48v || outputs.went_230v then some "overheat"
      else none
    (outputs, reason)

/-- A concrete automatic-mode runtime state used by concrete evaluations. -/
def autoState : RuntimeState where
  inputs := fun _ => none
  sensors := {}
  outputs := Outputs.allOff
  alarm_reason := none
  buzzer_muted := false
  strike_active_until := none
  last_updated := 0
  error := none
  manual_mode := false
  manual_overrides := fun _ => none

/-- C1: with manual mode disabled and at least one conditioned door OPEN, the
evaluator returns alarm on, light on, all climate outputs off, and the
published reason is exactly "door_open", for every sensor snapshot and every
flood state. -/
theorem door_open_overrides_all (thresholds : ThresholdConfig)
    (state : RuntimeState) (sensors : SensorSnapshot)
    (doorStates floodStates : List Bool)
    (hm : state.manual_mode = false) (hd : true ∈ doorStates) :
    evaluateLogic thresholds state sensors doorStates floodStates =
      ({ alarm := true, klimatyzacja := false, oswietlenie := true,
         grzalka := false, went_48v := false, went_230v := false },
       some "door_open") := by
  have hany : doorStates.any id = true := List.any_eq_true.mpr ⟨true, hd, rfl⟩
  simp [evaluateLogic, automaticLogic, Outputs.allOff, hm, hany]

/-- C1 witness: the door-priority theorem applied at a concrete input. -/
theorem door_open_overrides_all_witness :
    autoState.manual_mode = false ∧ true ∈ [true] ∧
      evaluateLogic defaultThresholds autoState
          { temp_cab := some 31 } [true] [true] =
        ({ alarm := true, klimatyzacja := false, oswietlenie := true,
           grzalka := false, went_48v := false, went_230v := false },
         some "door_open") :=
  ⟨rfl, by simp,
    door_open_overrides_all defaultThresholds autoState
      { temp_cab := some 31 } [true] [true] rfl (by simp)⟩

/-- C2 counterexample: Tc = 31, flood active, doors closed, manual off, default
thresholds (fan threshold 30). The claim expects fan_48v on and a reason
containing "overheat"; the code's flood branch returns early, so the fans stay
off and the reason is exactly "flood". -/
theorem flood_skips_climate_cex :
    (evaluateLogic defaultThresholds autoState
        { temp_cab := some 31 } [false, false] [true]).1.went_48v = false ∧
    (evaluateLogic defaultThresholds autoState
        { temp_cab := some 31 } [false, false] [true]).2 = some "flood" ∧
    (31 : ℚ) ≥ defaultThresholds.went_c := by
  refine ⟨?_, ?_, by norm_num [defaultThresholds]⟩ <;> rfl

/-- C2 amended: with manual off, no door open and at least one flood active,
the evaluator returns alarm on with every other output off and the reason
exactly "flood"; the climate rules are not evaluated, so the fans stay off and
the reason never mentions overheat, whatever the sensor values. -/
theorem flood_alarm_only (thresholds : ThresholdConfig)
    (state : RuntimeState) (sensors : SensorSnapshot)
    (doorStates floodStates : List Bool)
    (hm : state.manual_mode = false) (hd : doorStates.any id = false)
    (hf : true ∈ floodStates) :
    evaluateLogic thresholds state sensors doorStates floodStates =
      ({ Outputs.allOff with alarm := true }, some "flood") := by
  have hany : floodStates.any id = true := List.any_eq_true.mpr ⟨true, hf, rfl⟩
  simp [evaluateLogic, automaticLogic, Outputs.allOff, hm, hd, hany]

/-- C2 witness: the flood-branch theorem applied at a concrete input. -/
theorem flood_alarm_only_witness :
    autoState.manual_mode = false ∧ ([false] : List Bool).any id = false ∧
      true ∈ [true] ∧
      evaluateLogic defaultThresholds autoState { temp_cab := some 31 }
          [false] [true] =
        ({ Outputs.allOff with alarm := true }, some "flood") :=
  ⟨rfl, rfl, by simp,
    flood_alarm_only defaultThresholds autoState { temp_cab := some 31 }
      [false] [true] rfl rfl (by simp)⟩

/-- C3 counterexample: default thresholds (heater_c = 5, H = 1), Tc = 5, no
door, no flood. The claim says the heater turns on exactly when Tc ≤ heater_c,
so it should be on at Tc = 5; the code turns it on only when
Tc ≤ heater_c − H = 4, so it stays off. -/
theorem hysteresis_band_cex :
    (5 : ℚ) ≤ defaultThresholds.grzalka_c ∧
    (evaluateLogic defaultThresholds autoState
        { temp_cab := some 5 } [] []).1.grzalka = false := by
  refine ⟨by norm_num [defaultThresholds], ?_⟩
  norm_num [evaluateLogic, automaticLogic, effectiveTemp, defaultThresholds,
    Outputs.allOff, autoState]

/-- C3 amended: with manual off, no door open, no flood and a known effective
temperature t (the maximum of the available battery/cabinet readings), the
evaluator is memoryless — each evaluation starts from the all-off dictionary,
so no previous on/off state is retained inside the dead bands: heater is on
iff t ≤ heater_c − H, cooler is on iff t ≥ cooler_c + H, both fans are on iff
t ≥ fan_c, and the reason is "overheat" exactly when t ≥ fan_c. -/
theorem climate_bands_memoryless (thresholds : ThresholdConfig)
    (state : RuntimeState) (sensors : SensorSnapshot)
    (doorStates floodStates : List Bool) (t : ℚ)
    (hm : state.manual_mode = false) (hd : doorStates.any id = false)
    (hf : floodStates.any id = false)
    (ht : effectiveTemp sensors.temp_batt sensors.temp_cab = some t) :
    evaluateLogic thresholds state sensors doorStates floodStates =
      ({ alarm := false,
         klimatyzacja :=
           decide (t ≥ thresholds.klimatyzacja_c + thresholds.histereza_c),
         oswietlenie := false,
         grzalka :=
           decide (t ≤ thresholds.grzalka_c - thresholds.histereza_c),
         went_48v := decide (t ≥ thresholds.went_c),
         went_230v := decide (t ≥ thresholds.went_c) },
       if t ≥ thresholds.went_c then some "overheat" else none) := by
  simp only [evaluateLogic, automaticLogic, Outputs.allOff, hm, hd, hf,
    Bool.false_eq_true, if_false, ht]
  split_ifs with h1 h2 h3 h4 h5 h6 h7 h8 h9 h10 h11 h12 h13 h14 h15 h16 h17 <;>
    simp_all

/-- C3 witness: the amended climate-band theorem applied at a concrete
input (Tc = 31 with default thresholds: fans on, reason "overheat"). -/
theorem climate_bands_memoryless_witness :
    autoState.manual_mode = false ∧ ([] : List Bool).any id = false ∧
      effectiveTemp (SensorSnapshot.temp_batt { temp_cab := some 31 })
          (SensorSnapshot.temp_cab { temp_cab := some 31 }) = some 31 ∧
      evaluateLogic defaultThresholds autoState { temp_cab := some 31 } [] [] =
        ({ alarm := false,
           klimatyzacja := decide ((31 : ℚ) ≥
             defaultThresholds.klimatyzacja_c + defaultThresholds.histereza_c),
           oswietlenie := false,
           grzalka := decide ((31 : ℚ) ≤
             defaultThresholds.grzalka_c - defaultThresholds.histereza_c),
           went_48v := decide ((31 : ℚ) ≥ defaultThresholds.went_c),
           went_230v := decide ((31 : ℚ) ≥ defaultThresholds.went_c) },
         if (31 : ℚ) ≥ defaultThresholds.went_c then some "overheat"
         else none) :=
  ⟨rfl, rfl, rfl,
    climate_bands_memoryless defaultThresholds autoState
      { temp_cab := some 31 } [] [] 31 rfl rfl rfl rfl⟩

/-- C4 counterexample: cabinet temperature unknown, battery temperature 50,
no door, no flood, default thresholds. The claim says heater and cooler stay
off and nothing is actuated when Tc is None; the code falls back to the
battery reading and turns the cooler and both fans on. -/
theorem cabinet_none_uses_battery_cex :
    (automaticLogic defaultThresholds
        { temp_batt := some 50 } false false).klimatyzacja = true ∧
    (automaticLogic defaultThresholds
        { temp_batt := some 50 } false false).went_48v = true := by
  constructor <;>
    norm_num [automaticLogic, effectiveTemp, defaultThresholds, Outputs.allOff]

/-- C4 amended: the evaluator decides climate state from the maximum of the
available temperatures, not from the cabinet temperature alone: with both
readings missing every output is kept off (safe mode), and a missing cabinet
reading is replaced by the battery reading, which is treated exactly as a
cabinet reading of the same value would be. -/
theorem effective_temperature_safe_mode (thresholds : ThresholdConfig)
    (hb hc : Option ℚ) :
    automaticLogic thresholds
        { temp_batt := none, hum_batt := hb, temp_cab := none, hum_cab := hc }
        false false = Outputs.allOff ∧
    ∀ tb : ℚ,
      automaticLogic thresholds
          { temp_batt := some tb, hum_batt := hb,
            temp_cab := none, hum_cab := hc } false false =
        automaticLogic thresholds
          { temp_batt := none, hum_batt := hb,
            temp_cab := some tb, hum_cab := hc } false false := by
  constructor
  · simp [automaticLogic, effectiveTemp]
  · intro tb
    simp [automaticLogic, effectiveTemp]

/-- A concrete manual-mode runtime state: alarm currently on from a flood,
empty override dictionary. -/
def manualState : RuntimeState :=
  { autoState with
    manual_mode := true,
    outputs := { Outputs.allOff with alarm := true },
    alarm_reason := some "flood" }

/-- C5 counterexample: manual mode enabled with an empty override dictionary
while the previous outputs have alarm on and the previous reason is "flood".
The claim says an output not mentioned in the overrides is off and the reason
is "MANUAL"; the code keeps the previous alarm value and the previous
reason. -/
theorem manual_mode_merge_cex :
    manualState.manual_overrides "alarm" = none ∧
    (evaluateLogic defaultThresholds manualState {} [] []).1.alarm = true ∧
    (evaluateLogic defaultThresholds manualState {} [] []).2 = some "flood" := by
  exact ⟨rfl, rfl, rfl⟩

/-- C5 amended: in manual mode the evaluator returns the previous outputs
merged with the overrides — an output with an override entry takes that value,
an output without one keeps its previous state (it is not forced off) — and
the published reason is the previous alarm reason carried over unchanged
(the evaluator never produces the string "MANUAL"). -/
theorem manual_mode_merges_previous (thresholds : ThresholdConfig)
    (state : RuntimeState) (sensors : SensorSnapshot)
    (doorStates floodStates : List Bool) (hm : state.manual_mode = true) :
    (evaluateLogic thresholds state sensors doorStates floodStates).2 =
        state.alarm_reason ∧
    (evaluateLogic thresholds state sensors doorStates floodStates).1 =
      { alarm := (state.manual_overrides "alarm").getD state.outputs.alarm,
        klimatyzacja :=
          (state.manual_overrides "klimatyzacja").getD
            state.outputs.klimatyzacja,
        oswietlenie :=
          (state.manual_overrides "oswietlenie").getD state.outputs.oswietlenie,
        grzalka := (state.manual_overrides "grzalka").getD state.outputs.grzalka,
        went_48v :=
          (state.manual_overrides "went_48v").getD state.outputs.went_48v,
        went_230v :=
          (state.manual_overrides "went_230v").getD state.outputs.went_230v } := by
  constructor <;> simp [evaluateLogic, applyOverrides, hm]

/-- C5 witness: the manual-merge theorem applied at a concrete input. -/
theorem manual_mode_merges_previous_witness :
    manualState.manual_mode = true ∧
    (evaluateLogic defaultThresholds manualState {} [] []).2 =
        manualState.alarm_reason ∧
    (evaluateLogic defaultThresholds manualState {} [] []).1 =
      { alarm :=
          (manualState.manual_overrides "alarm").getD manualState.outputs.alarm,
        klimatyzacja :=
          (manualState.manual_overrides "klimatyzacja").getD
            manualState.outputs.klimatyzacja,
        oswietlenie :=
          (manualState.manual_overrides "oswietlenie").getD
            manualState.outputs.oswietlenie,
        grzalka :=
          (manualState.manual_overrides "grzalka").getD
            manualState.outputs.grzalka,
        went_48v :=
          (manualState.manual_overrides "went_48v").getD
            manualState.outputs.went_48v,
        went_230v :=
          (manualState.manual_overrides "went_230v").getD
            manualState.outputs.went_230v } :=
  ⟨rfl, manual_mode_merges_previous defaultThresholds manualState {} [] [] rfl⟩

/-- Per-channel door debounce state of `ControlLoop`: `_door_state[channel]`
(the accepted stable state, absent at startup) and `_door_pending[channel]`
(a raw value together with the timestamp at which it became pending). -/
structure DoorDebounce where
  stable : Option Bool
  pending : Option (Bool × ℚ)
deriving DecidableEq, Repr

/-- One fast-loop sample of the door branch of `ControlLoop._read_inputs`
(control_loop.py lines 91-104): polarity is applied to the raw reading, a
matching pending entry older than the debounce threshold is accepted (and
popped), otherwise a pending entry is (re)recorded only when the reading
differs from the stable state. Returns the new debounce state and the value
published to `door_events` (`_door_state.get(channel, False)`). -/
def doorStep (doorOpenIsHigh : Bool) (debounceThreshold : ℚ)
    (s : DoorDebounce) (raw : Bool) (now : ℚ) : DoorDebounce × Bool :=
  let doorOpen := if doorOpenIsHigh then raw else !raw
  let s' : DoorDebounce :=
    match s.pending with
    | some (pv, pt) =>
      if pv = doorOpen then
        if now - pt ≥ debounceThreshold then
          { stable := some doorOpen, pending := none }
        else s
      else if s.stable ≠ some doorOpen then
        { s with pending := some (doorOpen, now) }
      else s
    | none =>
      if s.stable ≠ some doorOpen then
        { s with pending := some (doorOpen, now) }
      else s
  (s', s'.stable.getD false)

/-- A sequence of fast-loop samples `(timestamp, raw)` folded through
`doorStep`, collecting the published door states. -/
def doorTrace (doorOpenIsHigh : Bool) (debounceThreshold : ℚ)
    (s : DoorDebounce) (samples : List (ℚ × Bool)) : DoorDebounce × List Bool :=
  samples.foldl
    (fun acc sample =>
      let r := doorStep doorOpenIsHigh debounceThreshold acc.1 sample.2 sample.1
      (r.1, acc.2 ++ [r.2]))
    (s, [])

/-- C6 counterexample: threshold 150 ms, samples CLOSED@0s, CLOSED@0.2s
(stabilises CLOSED), OPEN@0.4s (pending), CLOSED@0.5s (flip back to stable),
OPEN@0.6s. The claim says the flip-back discards the pending record, so the
re-occurring OPEN would have to persist 150 ms from 0.6 s; the code retains
the pending record from 0.4 s and publishes OPEN already at 0.6 s. -/
theorem debounce_pending_retained_cex :
    (doorTrace true (3/20) ⟨none, none⟩
        [(0, false), (1/5, false), (2/5, true), (1/2, false), (3/5, true)]).2 =
      [false, false, false, false, true] ∧
    (doorTrace true (3/20) ⟨none, none⟩
        [(0, false), (1/5, false), (2/5, true), (1/2, false)]).1.pending =
      some (true, 2/5) ∧
    (3 : ℚ)/5 - 3/5 < 3/20 := by
  have h1 : doorStep true (3/20) ⟨none, none⟩ false 0 =
      (⟨none, some (false, 0)⟩, false) := by
    simp [doorStep]
  have h2 : doorStep true (3/20) ⟨none, some (false, 0)⟩ false (1/5) =
      (⟨some false, none⟩, false) := by
    simp only [doorStep]
    norm_num
  have h3 : doorStep true (3/20) ⟨some false, none⟩ true (2/5) =
      (⟨some false, some (true, 2/5)⟩, false) := by
    simp [doorStep]
  have h4 : doorStep true (3/20) ⟨some false, some (true, 2/5)⟩ false (1/2) =
      (⟨some false, some (true, 2/5)⟩, false) := by
    simp [doorStep]
  have h5 : doorStep true (3/20) ⟨some false, some (true, 2/5)⟩ true (3/5) =
      (⟨some true, none⟩, true) := by
    simp only [doorStep]
    norm_num
  refine ⟨?_, ?_, by norm_num⟩ <;>
    simp only [doorTrace, List.foldl_cons, List.foldl_nil, h1, h2, h3, h4, h5] <;>
    rfl

/-- C6 amended: the published door state changes only when the current reading
matches a pending record made at least the debounce threshold earlier (so no
single shorter glitch is ever published); but on a flip back to the stable
state the pending record is retained, not discarded, so a re-occurrence of the
pending value is accepted as soon as the threshold has elapsed since the
original pending timestamp. -/
theorem debounce_change_characterisation (doorOpenIsHigh : Bool)
    (debounceThreshold : ℚ) (s : DoorDebounce) (raw : Bool) (now : ℚ) :
    ((doorStep doorOpenIsHigh debounceThreshold s raw now).2 ≠
        s.stable.getD false →
      ∃ pt, s.pending = some ((if doorOpenIsHigh then raw else !raw), pt) ∧
        now - pt ≥ debounceThreshold ∧
        (doorStep doorOpenIsHigh debounceThreshold s raw now).1.stable =
          some (if doorOpenIsHigh then raw else !raw)) ∧
    (∀ pv pt, s.pending = some (pv, pt) →
      pv ≠ (if doorOpenIsHigh then raw else !raw) →
      s.stable = some (if doorOpenIsHigh then raw else !raw) →
      (doorStep doorOpenIsHigh debounceThreshold s raw now).1.pending =
        some (pv, pt)) := by
  constructor
  · intro hchange
    rcases hp : s.pending with _ | ⟨pv, pt⟩
    · exfalso
      apply hchange
      simp only [doorStep, hp]
      split_ifs <;> rfl
    · by_cases h1 : pv = (if doorOpenIsHigh then raw else !raw)
      · by_cases h2 : now - pt ≥ debounceThreshold
        · exact ⟨pt, by rw [h1], h2, by simp [doorStep, hp, h1, h2]⟩
        · exfalso
          apply hchange
          simp [doorStep, hp, h1, h2]
      · exfalso
        apply hchange
        simp only [doorStep, hp]
        split_ifs <;> simp_all
  · intro pv pt hp h1 h2
    simp [doorStep, hp, h1, h2]

/-- C6 witness: the debounce characterisation applied at a concrete input —
the flip-back sample at 0.5 s of the counterexample trace retains the pending
record `(OPEN, 0.4 s)`. -/
theorem debounce_change_characterisation_witness :
    (doorStep true (3/20) ⟨some false, some (true, 2/5)⟩ false (1/2)).1.pending =
      some (true, 2/5) :=
  (debounce_change_characterisation true (3/20)
      ⟨some false, some (true, 2/5)⟩ false (1/2)).2
    true (2/5) rfl (by simp) rfl

/-- Transistor channels present on the hardware: `HardwareInterface` keeps
`_transistor_state` keyed by `T1..T8` (hardware.py lines 38 and 65). -/
def transistorChannels : List String :=
  (List.range 8).map (fun i => "T" ++ toString (i + 1))

/-- `has_transistor_channel` of `HardwareInterface` (hardware.py line 109),
also the membership check `set_transistor_channel` performs before raising
`KeyError` (hardware.py line 103). -/
def hasTransistorChannel (channel : String) : Bool :=
  transistorChannels.contains channel

/-- `StrikeConfig.default_duration_seconds` default (config.py line 97). -/
def defaultStrikeDuration : ℚ := 10

/-- Observable effect of one `StrikeService.trigger` call: the boolean the
caller receives, whether the worker committed any hardware write, and the
timed writes the worker makes to `RuntimeState.strike_active_until`. -/
structure StrikeRunResult where
  callerResult : Bool
  committed : Bool
  activeUntilUpdates : List (ℚ × Option ℚ)
deriving DecidableEq, Repr

/-- `StrikeService.trigger` (strike.py lines 30-55). An unassigned strike id
returns `False` with no side effect. Otherwise `True` is returned at once and
a worker thread runs: if the transistor label is unknown to the hardware the
first `set_transistor_channel` raises `KeyError` before any commit and the
worker only logs; else the worker commits, sets `strike_active_until` to
`now + duration`, sleeps, clears the transistor and sets the field back to
`None`. Python's `duration or self.default_duration` treats a zero duration
argument as absent. -/
def strikeTrigger (assignments : String → Option String)
    (defaultDuration : ℚ) (strikeId : String) (durationArg : Option ℚ)
    (now : ℚ) : StrikeRunResult :=
  match assignments strikeId with
  | none =>
    { callerResult := false, committed := false, activeUntilUpdates := [] }
  | some transistor =>
    let duration :=
      match durationArg with
      | none => defaultDuration
      | some d => if d = 0 then defaultDuration else d
    if hasTransistorChannel transistor then
      { callerResult := true, committed := true,
        activeUntilUpdates :=
          [(now, some (now + duration)), (now + duration, none)] }
    else
      { callerResult := true, committed := false, activeUntilUpdates := [] }

/-- Replay of a time-ordered list of `strike_active_until` writes: each write
whose timestamp has passed overwrites the previous value. -/
def applyUpdates (updates : List (ℚ × Option ℚ)) (now : ℚ) : Option ℚ :=
  updates.foldl (fun acc u => if u.1 ≤ now then u.2 else acc) none

/-- Insertion by timestamp, used to merge the write sequences of concurrently
running strike workers into wall-clock order. -/
def insertByTime (u : ℚ × Option ℚ) :
    List (ℚ × Option ℚ) → List (ℚ × Option ℚ)
  | [] => [u]
  | v :: rest => if u.1 ≤ v.1 then u :: v :: rest else v :: insertByTime u rest

/-- Sort a list of timed writes chronologically. -/
def sortByTime (l : List (ℚ × Option ℚ)) : List (ℚ × Option ℚ) :=
  l.foldr insertByTime []

/-- C7: evaluation of `StrikeService.trigger` at the failing inputs. With a
strike assigned to a transistor label the hardware does not have, `trigger`
returns the bare boolean `true` — no Outcome record and no
`transistor_unavailable` error kind reaches the caller, the failure being
logged only inside the worker thread (nothing is committed there). With an
unassigned strike it returns the bare boolean `false` instead of an Outcome
with error `not_configured`. The caller `api/v1.py` and the repository's own
tests require an outcome object with `success`/`error` fields. -/
theorem strike_trigger_returns_bare_bool :
    strikeTrigger (fun s => if s = "strike_1" then some "T9" else none)
        defaultStrikeDuration "strike_1" none 0 =
      { callerResult := true, committed := false, activeUntilUpdates := [] } ∧
    strikeTrigger (fun s => if s = "strike_1" then some "T9" else none)
        defaultStrikeDuration "strike_2" none 0 =
      { callerResult := false, committed := false, activeUntilUpdates := [] } := by
  constructor <;> rfl

/-- C8 counterexample: the same strike triggered at t = 0 and again at t = 5,
both for the default 10 s. The first worker unconditionally clears
`strike_active_until` when its own duration elapses at t = 10, so at t = 12
the field is `None` although the second strike is still active (until 15) —
the field is neither non-null-iff-active nor the maximum expiry. -/
theorem strike_active_until_overlap_cex :
    applyUpdates
        (sortByTime
          ((strikeTrigger (fun _ => some "T3") defaultStrikeDuration
              "strike_1" none 0).activeUntilUpdates ++
           (strikeTrigger (fun _ => some "T3") defaultStrikeDuration
              "strike_1" none 5).activeUntilUpdates)) 12 = none ∧
    (5 : ℚ) ≤ 12 ∧ (12 : ℚ) < 5 + defaultStrikeDuration := by
  have hT3 : hasTransistorChannel "T3" = true := by decide
  have h1 : (strikeTrigger (fun _ => some "T3") defaultStrikeDuration
      "strike_1" none 0).activeUntilUpdates = [(0, some 10), (10, none)] := by
    norm_num [strikeTrigger, hT3, defaultStrikeDuration]
  have h2 : (strikeTrigger (fun _ => some "T3") defaultStrikeDuration
      "strike_1" none 5).activeUntilUpdates = [(5, some 15), (15, none)] := by
    norm_num [strikeTrigger, hT3, defaultStrikeDuration]
  have hsort : sortByTime
      ([((0 : ℚ), some (10 : ℚ)), (10, none)] ++ [(5, some 15), (15, none)]) =
      [(0, some 10), (5, some 15), (10, none), (15, none)] := by
    norm_num [sortByTime, insertByTime]
  have happ : applyUpdates
      [((0 : ℚ), some (10 : ℚ)), (5, some 15), (10, none), (15, none)] 12 =
      none := by
    norm_num [applyUpdates]
  refine ⟨?_, by norm_num, by norm_num [defaultStrikeDuration]⟩
  rw [h1, h2, hsort, happ]

/-- C8 amended: a successful trigger immediately records
`strike_active_until = trigger time + duration` (the default duration when no
argument is given), and the same worker unconditionally clears the field to
`None` once its own duration elapses; hence for a single strike the field is
non-null exactly while the strike is active and holds its expiry, but the
clearing does not consult any other strike's timer. -/
theorem strike_single_lifetime (assignments : String → Option String)
    (transistor strikeId : String) (d t now : ℚ)
    (ha : assignments strikeId = some transistor)
    (hok : hasTransistorChannel transistor = true) (hd : 0 ≤ d) :
    (strikeTrigger assignments d strikeId none t).callerResult = true ∧
    (strikeTrigger assignments d strikeId none t).activeUntilUpdates =
      [(t, some (t + d)), (t + d, none)] ∧
    applyUpdates
        (strikeTrigger assignments d strikeId none t).activeUntilUpdates now =
      (if t ≤ now ∧ now < t + d then some (t + d) else none) := by
  refine ⟨by simp [strikeTrigger, ha, hok], by simp [strikeTrigger, ha, hok], ?_⟩
  simp only [strikeTrigger, ha, hok, applyUpdates, List.foldl_cons,
    List.foldl_nil, if_true]
  rcases le_or_lt (t + d) now with hdone | hrun
  · have hno : ¬ (t ≤ now ∧ now < t + d) := fun hc => absurd hdone (not_le.mpr hc.2)
    simp [hdone, hno]
  · rcases le_or_lt t now with hstart | hbefore
    · have hc : t ≤ now ∧ now < t + d := ⟨hstart, hrun⟩
      simp [not_le.mpr hrun, hstart, hc]
    · have hno : ¬ (t ≤ now ∧ now < t + d) :=
        fun hc => absurd hc.1 (not_le.mpr hbefore)
      simp [not_le.mpr hrun, not_le.mpr hbefore, hno]

/-- C8 witness: the single-strike lifetime theorem applied at a concrete
input (trigger at t = 0 with the default 10 s duration, observed at t = 5). -/
theorem strike_single_lifetime_witness :
    (fun _ : String => some "T3") "strike_1" = some "T3" ∧
    hasTransistorChannel "T3" = true ∧ (0 : ℚ) ≤ defaultStrikeDuration ∧
    ((strikeTrigger (fun _ => some "T3") defaultStrikeDuration "strike_1"
        none 0).callerResult = true ∧
     (strikeTrigger (fun _ => some "T3") defaultStrikeDuration "strike_1"
        none 0).activeUntilUpdates =
       [(0, some (0 + defaultStrikeDuration)),
        (0 + defaultStrikeDuration, none)] ∧
     applyUpdates
         (strikeTrigger (fun _ => some "T3") defaultStrikeDuration "strike_1"
            none 0).activeUntilUpdates 5 =
       (if (0 : ℚ) ≤ 5 ∧ (5 : ℚ) < 0 + defaultStrikeDuration then
          some (0 + defaultStrikeDuration)
        else none)) :=
  ⟨rfl, by decide, by norm_num [defaultStrikeDuration],
    strike_single_lifetime (fun _ => some "T3") "T3" "strike_1"
      defaultStrikeDuration 0 5 rfl (by decide)
      (by norm_num [defaultStrikeDuration])⟩

/-- `HardwareInterface._encode_outputs` (hardware.py lines 141-152) for one
bank: the pin maps `RELAY_PIN_MAP`/`TRANSISTOR_PIN_MAP` send channel `i+1` to
bit `i`; `mapping.get(name, False)` is modelled by `List.getD`; the level is
inverted when the bank is active-low and or-ed into the byte. -/
def encodeOutputs (states : List Bool) (activeLow : Bool) : ℕ :=
  (List.range 8).foldl
    (fun value pin =>
      let level := states.getD pin false
      let level := if activeLow then !level else level
      if level then value ||| (1 <<< pin) else value)
    0

/-- Modelled from the spec: property P2's "decoding the committed byte with
the same polarity" — the repository has no inverse decoder for output bytes,
so this definition follows the spec's words: take bit `pin` of the byte and
invert it when the bank is active-low. -/
def decodeOutputsSpec (activeLow : Bool) (byte : ℕ) (pin : ℕ) : Bool :=
  let level := byte.testBit pin
  if activeLow then !level else level

/-- Exhaustive check of the encoder over all 8-channel states and both
polarities: each bit is the channel state xor the polarity, the byte is below
256, and the spec's decode recovers the states. -/
lemma encodeOutputs_spec_aux :
    ∀ b0 b1 b2 b3 b4 b5 b6 b7 p : Bool,
      (∀ i : Fin 8,
        (encodeOutputs [b0, b1, b2, b3, b4, b5, b6, b7] p).testBit (i : ℕ) =
          xor ([b0, b1, b2, b3, b4, b5, b6, b7].getD (i : ℕ) false) p) ∧
      encodeOutputs [b0, b1, b2, b3, b4, b5, b6, b7] p < 256 ∧
      (∀ i : Fin 8,
        decodeOutputsSpec p (encodeOutputs [b0, b1, b2, b3, b4, b5, b6, b7] p)
            (i : ℕ) =
          [b0, b1, b2, b3, b4, b5, b6, b7].getD (i : ℕ) false) := by
  decide

/-- C9: for every assignment of boolean states to the eight channels of a bank
and every polarity flag, bit i of the encoded output byte equals the state of
channel i+1 xor active_low, no bit at position 8 or above is set, and decoding
the committed byte with the same polarity recovers the original states. -/
theorem encode_polarity_roundtrip (b0 b1 b2 b3 b4 b5 b6 b7 p : Bool) :
    (∀ i : Fin 8,
      (encodeOutputs [b0, b1, b2, b3, b4, b5, b6, b7] p).testBit (i : ℕ) =
        xor ([b0, b1, b2, b3, b4, b5, b6, b7].getD (i : ℕ) false) p) ∧
    (∀ j : ℕ, 8 ≤ j →
      (encodeOutputs [b0, b1, b2, b3, b4, b5, b6, b7] p).testBit j = false) ∧
    (∀ i : Fin 8,
      decodeOutputsSpec p (encodeOutputs [b0, b1, b2, b3, b4, b5, b6, b7] p)
          (i : ℕ) =
        [b0, b1, b2, b3, b4, b5, b6, b7].getD (i : ℕ) false) := by
  obtain ⟨hbit, hlt, hdec⟩ := encodeOutputs_spec_aux b0 b1 b2 b3 b4 b5 b6 b7 p
  refine ⟨hbit, ?_, hdec⟩
  intro j hj
  refine Nat.testBit_eq_false_of_lt (lt_of_lt_of_le hlt ?_)
  calc (256 : ℕ) = 2 ^ 8 := by norm_num
    _ ≤ 2 ^ j := Nat.pow_le_pow_right (by norm_num) hj

/-- C9 witness: the round-trip theorem applied at a concrete input
(alternating states, active-low bank), with the high-bit part instantiated
at bit 9. -/
theorem encode_polarity_roundtrip_witness :
    (∀ i : Fin 8,
      (encodeOutputs [true, false, true, false, true, false, true, false]
            true).testBit (i : ℕ) =
        xor ([true, false, true, false, true, false, true, false].getD
              (i : ℕ) false) true) ∧
    (encodeOutputs [true, false, true, false, true, false, true, false]
        true).testBit 9 = false ∧
    (∀ i : Fin 8,
      decodeOutputsSpec true
          (encodeOutputs [true, false, true, false, true, false, true, false]
            true) (i : ℕ) =
        [true, false, true, false, true, false, true, false].getD
          (i : ℕ) false) :=
  ⟨(encode_polarity_roundtrip true false true false true false true false
      true).1,
   (encode_polarity_roundtrip true false true false true false true false
      true).2.1 9 (by norm_num),
   (encode_polarity_roundtrip true false true false true false true false
      true).2.2⟩

/-- `StateContainer.update` (state.py lines 67-81) restricted to the keyword
arguments `set_output` passes: `manual_overrides` replaces the override
dictionary with a copy, `manual_mode` is set by `setattr`, and
`last_updated` is refreshed; every other field is untouched. -/
def containerUpdate (s : RuntimeState)
    (manualOverrides : Option (String → Option Bool)) (manualMode : Option Bool)
    (now : ℚ) : RuntimeState :=
  let s1 :=
    match manualOverrides with
    | some ov => { s with manual_overrides := ov }
    | none => s
  let s2 :=
    match manualMode with
    | some m => { s1 with manual_mode := m }
    | none => s1
  { s2 with last_updated := now }

/-- `set_output` of api/v1.py (lines 52-68): reject an unknown output name
with HTTP 400 and no state change; otherwise copy the override dictionary,
insert the named output, and update the global state with the new overrides
and `manual_mode=True`, returning the overrides. -/
def setOutput (s : RuntimeState) (name : String) (value : Bool) (now : ℚ) :
    Except ℕ (RuntimeState × (String → Option Bool)) :=
  if name ∈ LOGICAL_OUTPUTS then
    let overrides := fun n => if n = name then some value else s.manual_overrides n
    Except.ok (containerUpdate s (some overrides) (some true) now, overrides)
  else
    Except.error 400

/-- C10: a successful POST /api/v1/outputs with a known output name sets
manual_mode to True, merges only the named output into the overrides (every
other override entry is preserved), and leaves outputs, inputs, sensors,
alarm reason, buzzer flag, strike timestamp and error unchanged — only
last_updated is refreshed; an unknown name yields a 400 error and no updated
state. -/
theorem set_output_frame (s : RuntimeState) (name : String) (value : Bool)
    (now : ℚ) :
    (name ∈ LOGICAL_OUTPUTS →
      ∃ s' ov, setOutput s name value now = Except.ok (s', ov) ∧
        s'.manual_mode = true ∧
        ov name = some value ∧
        (∀ n, n ≠ name → ov n = s.manual_overrides n) ∧
        s'.manual_overrides = ov ∧
        s'.outputs = s.outputs ∧
        s'.inputs = s.inputs ∧
        s'.sensors = s.sensors ∧
        s'.alarm_reason = s.alarm_reason ∧
        s'.buzzer_muted = s.buzzer_muted ∧
        s'.strike_active_until = s.strike_active_until ∧
        s'.error = s.error ∧
        s'.last_updated = now) ∧
    (name ∉ LOGICAL_OUTPUTS → setOutput s name value now = Except.error 400) := by
  constructor
  · intro h
    refine ⟨{ s with
        manual_overrides := fun n => if n = name then some value
          else s.manual_overrides n,
        manual_mode := true, last_updated := now },
      fun n => if n = name then some value else s.manual_overrides n,
      ?_, rfl, by simp, ?_, rfl, rfl, rfl, rfl, rfl, rfl, rfl, rfl, rfl⟩
    · simp [setOutput, containerUpdate, h]
    · intro n hn
      simp [hn]
  · intro h
    simp [setOutput, h]

/-- C10 witness: the frame theorem applied at a concrete input
(name "alarm" on the initial runtime state). -/
theorem set_output_frame_witness :
    ∃ s' ov, setOutput autoState "alarm" true 1 = Except.ok (s', ov) ∧
      s'.manual_mode = true ∧
      ov "alarm" = some true ∧
      (∀ n, n ≠ "alarm" → ov n = autoState.manual_overrides n) ∧
      s'.manual_overrides = ov ∧
      s'.outputs = autoState.outputs ∧
      s'.inputs = autoState.inputs ∧
      s'.sensors = autoState.sensors ∧
      s'.alarm_reason = autoState.alarm_reason ∧
      s'.buzzer_muted = autoState.buzzer_muted ∧
      s'.strike_active_until = autoState.strike_active_until ∧
      s'.error = autoState.error ∧
      s'.last_updated = 1 :=
  (set_output_frame autoState "alarm" true 1).1 (by decide)

end TCM
